import Mathlib

/-!
Verification development for the dvmn_minechat chat client
(source files: listen-minechat.py, write-minechat.py, write_minechat.py).

Text is modelled as `List Nat` of Unicode code points; wire data as
`List Nat` of bytes.  Network reads are modelled as `Option` values
(`none` = the read raised an I/O error), sends as `Bool` success flags,
and `json.loads` as an abstract parameter of type
`List Nat → Except Unit Json` (`Except.error` = the parser raised).
-/

/-- Code points treated as whitespace by Python's `str.strip()`. -/
def isPyWs (c : Nat) : Bool :=
  c = 9 || c = 10 || c = 11 || c = 12 || c = 13 ||
  c = 28 || c = 29 || c = 30 || c = 31 || c = 32 ||
  c = 0x85 || c = 0xA0 || c = 0x1680 ||
  (0x2000 ≤ c && c ≤ 0x200A) ||
  c = 0x2028 || c = 0x2029 || c = 0x202F || c = 0x205F || c = 0x3000

/-- Python `text.strip()`: drop leading whitespace, then drop trailing
whitespace (implemented as a left-drop on the reversal). -/
def pyStrip (s : List Nat) : List Nat :=
  ((s.dropWhile isPyWs).reverse.dropWhile isPyWs).reverse

/-- Python `text.replace("\n", " ")` for one-character arguments: a map
over the code points. -/
def replaceNewlines (s : List Nat) : List Nat :=
  s.map (fun c => if c = 10 then 32 else c)

/-- Python `text.split("\n", 1)[0]`: the prefix before the first newline. -/
def firstLine (s : List Nat) : List Nat :=
  s.takeWhile (fun c => c ≠ 10)

/-- Code points of a string literal, for readable concrete inputs. -/
def strBytes (s : String) : List Nat :=
  s.toList.map Char.toNat

/-- UTF-8 encoding of one code point (Python `str.encode()`). -/
def utf8EncodeChar (c : Nat) : List Nat :=
  if c < 0x80 then [c]
  else if c < 0x800 then [0xC0 + c / 64, 0x80 + c % 64]
  else if c < 0x10000 then [0xE0 + c / 4096, 0x80 + (c / 64) % 64, 0x80 + c % 64]
  else [0xF0 + c / 262144, 0x80 + (c / 4096) % 64, 0x80 + (c / 64) % 64, 0x80 + c % 64]

/-- UTF-8 encoding of a string (Python `str.encode()`). -/
def utf8Encode (s : List Nat) : List Nat :=
  s.flatMap utf8EncodeChar

/-- Decoding of one multi-byte UTF-8 sequence with lead byte
`b ≥ 0x80` and following bytes `rest`: the code point and the bytes
left over, or `none` if the sequence is invalid.  Overlong forms,
surrogates and out-of-range lead bytes are rejected, exactly the
standard UTF-8 acceptance ranges. -/
def utf8StepMulti (b : Nat) : List Nat → Option (Nat × List Nat) :=
  fun rest =>
    if 0xC2 ≤ b && b ≤ 0xDF then
      match rest with
      | c1 :: rest2 =>
        if 0x80 ≤ c1 && c1 ≤ 0xBF then
          some ((b - 0xC0) * 64 + (c1 - 0x80), rest2)
        else none
      | [] => none
    else if 0xE0 ≤ b && b ≤ 0xEF then
      match rest with
      | c1 :: c2 :: rest3 =>
        let lo1 := if b = 0xE0 then 0xA0 else 0x80
        let hi1 := if b = 0xED then 0x9F else 0xBF
        if lo1 ≤ c1 && c1 ≤ hi1 && 0x80 ≤ c2 && c2 ≤ 0xBF then
          some ((b - 0xE0) * 4096 + (c1 - 0x80) * 64 + (c2 - 0x80), rest3)
        else none
      | _ => none
    else if 0xF0 ≤ b && b ≤ 0xF4 then
      match rest with
      | c1 :: c2 :: c3 :: rest4 =>
        let lo1 := if b = 0xF0 then 0x90 else 0x80
        let hi1 := if b = 0xF4 then 0x8F else 0xBF
        if lo1 ≤ c1 && c1 ≤ hi1 && 0x80 ≤ c2 && c2 ≤ 0xBF && 0x80 ≤ c3 && c3 ≤ 0xBF then
          some ((b - 0xF0) * 262144 + (c1 - 0x80) * 4096 + (c2 - 0x80) * 64 + (c3 - 0x80),
            rest4)
        else none
      | _ => none
    else none

/-- Fuel-indexed strict UTF-8 decoding; the fuel only bounds the
number of decoded code points (every step consumes at least one byte,
so fuel equal to the byte count never runs out). -/
def utf8DecodeFuel : Nat → List Nat → Option (List Nat)
  | _, [] => some []
  | 0, _ :: _ => none
  | fuel + 1, b :: rest =>
    if b < 0x80 then
      (utf8DecodeFuel fuel rest).map (fun s => b :: s)
    else
      match utf8StepMulti b rest with
      | none => none
      | some (cp, rest2) => (utf8DecodeFuel fuel rest2).map (fun s => cp :: s)

/-- Strict UTF-8 decoding (Python `bytes.decode()` with the default
`errors="strict"`): `none` means a `UnicodeDecodeError` is raised. -/
def utf8Decode (bs : List Nat) : Option (List Nat) :=
  utf8DecodeFuel bs.length bs

/-- Fuel-indexed best-effort decoding: an invalid sequence yields
U+FFFD (65533) and decoding resumes after the offending byte. -/
def utf8ReplaceFuel : Nat → List Nat → List Nat
  | _, [] => []
  | 0, _ :: _ => []
  | fuel + 1, b :: rest =>
    if b < 0x80 then b :: utf8ReplaceFuel fuel rest
    else
      match utf8StepMulti b rest with
      | some (cp, rest2) => cp :: utf8ReplaceFuel fuel rest2
      | none => 65533 :: utf8ReplaceFuel fuel rest

/-- Modelled from the spec: best-effort UTF-8 decoding in which
undecodable byte sequences are replaced by U+FFFD instead of raising
(the behaviour the spec claims for the listen channel; the source uses
strict decoding). -/
def utf8DecodeReplaceSpec (bs : List Nat) : List Nat :=
  utf8ReplaceFuel bs.length bs

/-! ### Listener role (listen-minechat.py) -/

/-- Wall-clock instant as captured by `datetime.now()`; only the fields
used by `DATETIME_FORMAT = "%d.%m.%y %H:%M"` are modelled. -/
structure Timestamp where
  day : Nat
  month : Nat
  year : Nat
  hour : Nat
  minute : Nat

/-- Two-digit zero-padded decimal rendering used by `strftime`'s
`%d`, `%m`, `%y`, `%H` and `%M` fields. -/
def pad2 (n : Nat) : List Nat :=
  [48 + (n / 10) % 10, 48 + n % 10]

/-- Rendering of `DATETIME_FORMAT = "%d.%m.%y %H:%M"`. -/
def formatTimestamp (ts : Timestamp) : List Nat :=
  pad2 ts.day ++ [46] ++ pad2 ts.month ++ [46] ++ pad2 (ts.year % 100) ++
    [32] ++ pad2 ts.hour ++ [58] ++ pad2 ts.minute

/-- History record built by `process_messages`:
`f"[{timestamp}] {message}\n"`. -/
def formatRecord (ts : Timestamp) (message : List Nat) : List Nat :=
  [91] ++ formatTimestamp ts ++ [93, 32] ++ message ++ [10]

/-- The `process_messages` loop of listen-minechat.py, lines 60-74.
Input: the byte lines yielded by `async for raw_message in reader`
(the stream reader splits the byte stream after each `\n`), and the
clock `now` giving the `datetime.now()` value at each loop iteration
(indexed from `i`).  Output: the records appended to the history file,
in order.  A strict-decode failure is the `except` branch: the error is
logged and the loop continues with the next line. -/
def process_messages (now : Nat → Timestamp) : Nat → List (List Nat) → List (List Nat)
  | _, [] => []
  | i, line :: rest =>
    match utf8Decode line with
    | none => process_messages now (i + 1) rest
    | some decoded =>
      let message := pyStrip decoded
      if message = [] then process_messages now (i + 1) rest
      else formatRecord (now i) message :: process_messages now (i + 1) rest

/-- Modelled from the spec: the same history pipeline but with the
best-effort replacement decoding the spec claims for the listen channel
(`utf8DecodeReplaceSpec` in place of the source's strict decode). -/
def process_messages_replaceSpec (now : Nat → Timestamp) : Nat → List (List Nat) → List (List Nat)
  | _, [] => []
  | i, line :: rest =>
    let message := pyStrip (utf8DecodeReplaceSpec line)
    if message = [] then process_messages_replaceSpec now (i + 1) rest
    else formatRecord (now i) message :: process_messages_replaceSpec now (i + 1) rest

/-- Outcome of the body run inside the `chat_connection` context
manager (the `yield` in listen-minechat.py, lines 43-57). -/
inductive BodyOutcome where
  | ok
  | error
  | cancelled

/-- Connection accounting for one use of a connection-opening
operation: whether a socket was successfully opened, and how many
times it was closed before the operation finished. -/
structure ConnUsage where
  opened : Bool
  closes : Nat
deriving DecidableEq

/-- The `chat_connection` context manager of listen-minechat.py:
if `asyncio.open_connection` succeeds, the `finally` block closes the
writer exactly once, whatever the body did (normal exit, exception, or
cancellation); if the connect raises, no connection ever existed. -/
def chat_connection (openOk : Bool) (_body : BodyOutcome) : ConnUsage :=
  if openOk then { opened := true, closes := 1 }
  else { opened := false, closes := 0 }

/-- Reconnect delay constant of listen-minechat.py, line 12
(`RECONNECT_TIME = 5.0`). -/
def RECONNECT_TIME : ℚ := 5

/-- How one pass of the listener's `while True` loop ends: the connect
refused (`except ConnectionRefusedError`), the established connection
broke (`except ConnectionError`), some other exception was caught
(`except Exception`), or the server closed the stream and
`process_messages` returned normally. -/
inductive SessionEnd where
  | refused
  | connectionError
  | otherError
  | streamEnded

/-- Delay inserted by the exception arms of the listener loop before
the next connection attempt: `await asyncio.sleep(RECONNECT_TIME)` only
for `ConnectionRefusedError`, no sleep on any other arm. -/
def delayAfter : SessionEnd → ℚ
  | .refused => RECONNECT_TIME
  | _ => 0

/-- One pass of the listener loop: how long the pass itself lasted
(connect attempt plus streaming, if any) and how it ended. -/
structure Session where
  duration : ℚ
  outcome : SessionEnd

/-- Start times of the successive connection attempts made by the
listener's `while True` loop (listen-minechat.py, lines 80-93), given
the start time `t` of the first attempt and the finite list of passes
observed so far.  After every ended pass the loop always starts another
attempt, so a list of `n` ended passes yields `n + 1` attempts. -/
def attemptTimes (t : ℚ) : List Session → List ℚ
  | [] => [t]
  | s :: rest => t :: attemptTimes (t + s.duration + delayAfter s.outcome) rest

/-- Differences between consecutive elements of a list of instants. -/
def gaps : List ℚ → List ℚ
  | a :: b :: r => (b - a) :: gaps (b :: r)
  | _ => []

/-! ### Sender role (write-minechat.py) -/

/-- Values produced by `json.loads`.  An `obj` carries the entries of
the resulting Python dict (keys unique, since `json.loads` keeps only
the last duplicate). -/
inductive Json where
  | null
  | bool (b : Bool)
  | num (n : Int)
  | str (s : List Nat)
  | arr (items : List Json)
  | obj (fields : List (List Nat × Json))

/-- Python `dict.get(key)` on the entries of a parsed object. -/
def jsonGet (fields : List (List Nat × Json)) (key : List Nat) : Option Json :=
  (fields.find? (fun p => p.1 == key)).map (fun p => p.2)

/-- Python truthiness of a parsed JSON value (`if not token`). -/
def truthy : Json → Bool
  | .null => false
  | .bool b => b
  | .num n => n != 0
  | .str s => !s.isEmpty
  | .arr items => !items.isEmpty
  | .obj fields => !fields.isEmpty

/-- Abstract model of `json.loads` applied to one line of text:
`Except.error` means the parser raised (malformed input). -/
def JsonParse : Type := List Nat → Except Unit Json

/-- The key string `"account_hash"`. -/
def keyAccountHash : List Nat := strBytes "account_hash"

/-- The key string `"nickname"`. -/
def keyNickname : List Nat := strBytes "nickname"

/-- Result of one `submit_message` call (write-minechat.py, lines
152-156): the bytes written to the socket and whether
`writer.drain()` completed before returning. -/
structure SubmitResult where
  wire : List Nat
  drained : Bool
deriving DecidableEq

/-- `submit_message` of write-minechat.py:
`clean_message = message.strip().replace("\n", " ")`, then
`writer.write(f"{clean_message}\n\n".encode())` and `await
writer.drain()`. -/
def submit_message (message : List Nat) : SubmitResult :=
  let clean_message := replaceNewlines (pyStrip message)
  { wire := utf8Encode (clean_message ++ [10, 10]), drained := true }

/-- The empty-payload submission `register` sends to start
registration (`await submit_message(writer)` with the default
`message = ""`). -/
def registration_kickoff_wire : List Nat :=
  (submit_message []).wire

/-- Inputs to one run of `register` (write-minechat.py, lines 96-126):
whether `asyncio.open_connection` succeeded, the decoded text of each
`reader.read` (`none` = the read raised; `decode(errors="ignore")`
itself never raises), and whether each `submit_message` send
succeeded. -/
structure RegisterInput where
  openOk : Bool
  greeting : Option (List Nat)
  send1Ok : Bool
  prompt : Option (List Nat)
  send2Ok : Bool
  response : Option (List Nat)

/-- Result of `register`: the `(nickname, token)` pair returned to
`main` (`none` = registration failed) and the object handed to
`save_credentials` (`none` = nothing persisted). -/
structure RegisterOutcome where
  result : Option (Json × Json)
  persisted : Option Json

/-- Response handling of `register` (write-minechat.py, lines 96-126).
The response text is stripped, its first line is parsed with
`json.loads` (a raise is caught by the surrounding `except Exception`:
failure, nothing persisted); `credentials.get` raises `AttributeError`
(caught, failure) unless the value is a dict;
`nickname = credentials.get("nickname", nickname)`,
`token = credentials.get("account_hash")`; a missing or falsy token is
failure before `save_credentials`; otherwise the parsed object itself
is persisted and `(nickname, token)` returned. -/
def register_response (parse : JsonParse) (nickname resp : List Nat) : RegisterOutcome :=
  match parse (firstLine (pyStrip resp)) with
  | .error _ => ⟨none, none⟩
  | .ok cred =>
    match cred with
    | .obj fields =>
      let nick := (jsonGet fields keyNickname).getD (Json.str nickname)
      match jsonGet fields keyAccountHash with
      | none => ⟨none, none⟩
      | some tok =>
        if truthy tok then ⟨some (nick, tok), some (Json.obj fields)⟩
        else ⟨none, none⟩
    | _ => ⟨none, none⟩

/-- The reads-and-sends wrapper of `register` (write-minechat.py,
lines 96-126): any I/O error raised before the response is examined
falls to the `except` arm, yielding `None` with nothing persisted. -/
def register (parse : JsonParse) (nickname : List Nat) (i : RegisterInput) : RegisterOutcome :=
  if !i.openOk then ⟨none, none⟩ else
  match i.greeting with
  | none => ⟨none, none⟩
  | some _ =>
    if !i.send1Ok then ⟨none, none⟩ else
    match i.prompt with
    | none => ⟨none, none⟩
    | some _ =>
      if !i.send2Ok then ⟨none, none⟩ else
      match i.response with
      | none => ⟨none, none⟩
      | some resp => register_response parse nickname resp

/-- Inputs to one run of `authorize` (write-minechat.py, lines
129-150): connect success, decoded greeting, token-send success, and
the decoded response text. -/
structure AuthInput where
  openOk : Bool
  greeting : Option (List Nat)
  sendOk : Bool
  response : Option (List Nat)

/-- Result of `authorize`: whether the open writer was returned to the
caller, whether a connection was ever opened, and how many times
`authorize` itself closed it. -/
structure AuthOutcome where
  writerReturned : Bool
  opened : Bool
  closes : Nat
deriving DecidableEq

/-- `authorize` of write-minechat.py, lines 129-150.  The response's
first line is parsed with `json.loads`; only a parse result that `is
None` (JSON `null`) takes the rejection branch, which closes the
writer and returns `None`; every other parse result returns the open
writer.  Any raised error is caught by `except Exception`, which logs
and falls through to an implicit `return None` without closing the
connection opened at the top. -/
def authorize (parse : JsonParse) (i : AuthInput) : AuthOutcome :=
  if !i.openOk then ⟨false, false, 0⟩ else
  match i.greeting with
  | none => ⟨false, true, 0⟩
  | some _ =>
    if !i.sendOk then ⟨false, true, 0⟩ else
    match i.response with
    | none => ⟨false, true, 0⟩
    | some resp =>
      match parse (firstLine (pyStrip resp)) with
      | .error _ => ⟨false, true, 0⟩
      | .ok Json.null => ⟨false, true, 1⟩
      | .ok _ => ⟨true, true, 0⟩

/-- What `main` (write-minechat.py, lines 181-192) does after
`authorize` returns: whether `submit_message(writer, args.message)`
ran to completion and how many times the connection was closed in
total (by `authorize` or by `main`'s `finally`). -/
structure SenderRun where
  messageSent : Bool
  totalCloses : Nat
deriving DecidableEq

/-- The tail of `main` in write-minechat.py: if `authorize` returned
no writer, log and return without sending; otherwise try the one
`submit_message` and close the writer exactly once in the `finally`
block. -/
def sender_main (parse : JsonParse) (i : AuthInput) (submitOk : Bool) : SenderRun :=
  let auth := authorize parse i
  if !auth.writerReturned then ⟨false, auth.closes⟩
  else ⟨submitOk, auth.closes + 1⟩

/-! ### Credential store (write-minechat.py `get_token`) -/

/-- How `open(filepath, encoding="utf-8")` followed by
`json.load(file)` can turn out for an existing file. -/
inductive JsonLoadOutcome where
  | ok (v : Json)
  | jsonDecodeError
  | unicodeDecodeError
  | ioError

/-- State of the credential file as seen by `get_token`:
either the `filepath.exists()` check fails, or the file is read and
`json.load` produces the given outcome. -/
inductive CredFile where
  | missing
  | loaded (r : JsonLoadOutcome)

/-- `get_token` of write-minechat.py, lines 68-81.  A missing file
returns `None`; `json.JSONDecodeError`, `KeyError` and `IOError` are
caught and return `None`.  A `UnicodeDecodeError` raised while reading
the file is in none of those classes, and subscripting a non-dict JSON
value (`credentials_data["account_hash"]`) raises `TypeError`: both
escape to the caller (`Except.error`). -/
def get_token : CredFile → Except Unit (Option Json)
  | .missing => .ok none
  | .loaded .jsonDecodeError => .ok none
  | .loaded .ioError => .ok none
  | .loaded .unicodeDecodeError => .error ()
  | .loaded (.ok (Json.obj fields)) =>
    match jsonGet fields keyAccountHash with
    | some v => .ok (some v)
    | none => .ok none
  | .loaded (.ok _) => .error ()

/-! ### Line codec glue (round trip between the two roles) -/

/-- The outgoing serialization of `submit_message` (write-minechat.py,
lines 152-156): the bytes put on the wire for a text. -/
def frame (t : List Nat) : List Nat :=
  (submit_message t).wire

/-- First line of a framed wire unit as the listener's stream reader
yields it: the bytes up to and including the first `\n` (a framed unit
always contains its terminator). -/
def firstWireLine (w : List Nat) : List Nat :=
  w.takeWhile (fun b => b ≠ 10) ++ [10]

/-- The incoming line decoding of `process_messages`
(listen-minechat.py, lines 60-74): strict UTF-8 decode of the received
line, then `strip()`. -/
def decodeLine (line : List Nat) : Option (List Nat) :=
  (utf8Decode line).map pyStrip

/-! ### Helper lemmas -/

theorem utf8Encode_cons (c : Nat) (s : List Nat) :
    utf8Encode (c :: s) = utf8EncodeChar c ++ utf8Encode s := rfl

theorem utf8Encode_append (a b : List Nat) :
    utf8Encode (a ++ b) = utf8Encode a ++ utf8Encode b := by
  simp [utf8Encode]

theorem utf8EncodeChar_ascii {c : Nat} (h : c < 128) : utf8EncodeChar c = [c] := by
  simp [utf8EncodeChar, h]

theorem ne_ten_of_mem_utf8EncodeChar {c b : Nat} (hc : c ≠ 10)
    (hb : b ∈ utf8EncodeChar c) : b ≠ 10 := by
  unfold utf8EncodeChar at hb
  by_cases h1 : c < 128
  · simp [h1] at hb
    omega
  · by_cases h2 : c < 2048
    · simp [h1, h2] at hb
      rcases hb with h | h <;> omega
    · by_cases h3 : c < 65536
      · simp [h1, h2, h3] at hb
        rcases hb with h | h | h <;> omega
      · simp [h1, h2, h3] at hb
        rcases hb with h | h | h | h <;> omega

theorem ne_ten_of_mem_utf8Encode {s : List Nat} (hs : ∀ c ∈ s, c ≠ 10)
    {b : Nat} (hb : b ∈ utf8Encode s) : b ≠ 10 := by
  simp only [utf8Encode, List.mem_flatMap] at hb
  obtain ⟨c, hc, hbc⟩ := hb
  exact ne_ten_of_mem_utf8EncodeChar (hs c hc) hbc

theorem replaceNewlines_ne_ten {s : List Nat} {c : Nat}
    (h : c ∈ replaceNewlines s) : c ≠ 10 := by
  simp only [replaceNewlines, List.mem_map] at h
  obtain ⟨a, _, ha⟩ := h
  by_cases h10 : a = 10 <;> simp [h10] at ha <;> omega

theorem replaceNewlines_eq_self : ∀ {s : List Nat}, (∀ c ∈ s, c ≠ 10) → replaceNewlines s = s
  | [], _ => rfl
  | a :: t, h => by
    have ha : a ≠ 10 := h a (List.mem_cons_self ..)
    have ht : replaceNewlines t = t :=
      replaceNewlines_eq_self (fun c hc => h c (List.mem_cons_of_mem _ hc))
    simp only [replaceNewlines, List.map_cons] at ht ⊢
    rw [ht, if_neg ha]

theorem utf8DecodeFuel_nil (fuel : Nat) : utf8DecodeFuel fuel [] = some [] := by
  cases fuel <;> rfl

theorem utf8DecodeFuel_cons_ascii {b : Nat} (hb : b < 128) (fuel : Nat) (l : List Nat) :
    utf8DecodeFuel (fuel + 1) (b :: l) = (utf8DecodeFuel fuel l).map (fun s => b :: s) := by
  simp [utf8DecodeFuel, hb]

theorem utf8Encode_length_ascii : ∀ {s : List Nat}, (∀ c ∈ s, c < 128) →
    (utf8Encode s).length = s.length
  | [], _ => rfl
  | c :: t, h => by
    have hc : c < 128 := h c (List.mem_cons_self ..)
    rw [utf8Encode_cons, utf8EncodeChar_ascii hc, List.singleton_append, List.length_cons,
      List.length_cons, utf8Encode_length_ascii (fun x hx => h x (List.mem_cons_of_mem _ hx))]

theorem utf8DecodeFuel_encode_ascii : ∀ (s : List Nat) (fuel : Nat), (∀ c ∈ s, c < 128) →
    s.length ≤ fuel → utf8DecodeFuel fuel (utf8Encode s) = some s
  | [], fuel, _, _ => utf8DecodeFuel_nil fuel
  | c :: t, fuel, h, hf => by
    have hc : c < 128 := h c (List.mem_cons_self ..)
    have ht : ∀ x ∈ t, x < 128 := fun x hx => h x (List.mem_cons_of_mem _ hx)
    cases fuel with
    | zero => simp at hf
    | succ f =>
      rw [utf8Encode_cons, utf8EncodeChar_ascii hc, List.singleton_append,
        utf8DecodeFuel_cons_ascii hc f,
        utf8DecodeFuel_encode_ascii t f ht (by simpa using Nat.lt_succ_iff.mp hf)]
      rfl

theorem utf8Decode_encode_ascii {s : List Nat} (h : ∀ c ∈ s, c < 128) :
    utf8Decode (utf8Encode s) = some s := by
  unfold utf8Decode
  exact utf8DecodeFuel_encode_ascii s _ h (le_of_eq (utf8Encode_length_ascii h).symm)

theorem pyStrip_eq_nil_of_all {m : List Nat} (h : ∀ c ∈ m, isPyWs c = true) :
    pyStrip m = [] := by
  unfold pyStrip
  rw [List.dropWhile_eq_nil_iff.mpr h]
  rfl

theorem pyStrip_ws_prefix {w s : List Nat} (hw : ∀ c ∈ w, isPyWs c = true) :
    pyStrip (w ++ s) = pyStrip s := by
  unfold pyStrip
  rw [List.dropWhile_append_of_pos hw]

theorem pyStrip_ws_suffix {s w : List Nat} (hw : ∀ c ∈ w, isPyWs c = true) :
    pyStrip (s ++ w) = pyStrip s := by
  unfold pyStrip
  rw [List.dropWhile_append]
  rcases h : s.dropWhile isPyWs with _ | ⟨c, t⟩
  · rw [List.dropWhile_eq_nil_iff.mpr hw]
    rfl
  · have hw' : ∀ x ∈ w.reverse, isPyWs x = true := fun x hx => hw x (List.mem_reverse.mp hx)
    simp only [List.isEmpty_cons, if_false, Bool.false_eq_true, ite_false,
      List.reverse_append, List.dropWhile_append_of_pos hw']

theorem attemptTimes_length : ∀ (sessions : List Session) (t : ℚ),
    (attemptTimes t sessions).length = sessions.length + 1
  | [], _ => rfl
  | s :: rest, t => by
    simp only [attemptTimes, List.length_cons, attemptTimes_length rest]

theorem gaps_cons_attemptTimes (t u : ℚ) (l : List Session) :
    gaps (t :: attemptTimes u l) = (u - t) :: gaps (attemptTimes u l) := by
  cases l <;> simp [attemptTimes, gaps]

theorem gaps_attemptTimes : ∀ (sessions : List Session) (t : ℚ),
    gaps (attemptTimes t sessions) =
      sessions.map (fun s => s.duration + delayAfter s.outcome)
  | [], _ => rfl
  | s :: rest, t => by
    rw [show attemptTimes t (s :: rest) =
        t :: attemptTimes (t + s.duration + delayAfter s.outcome) rest from rfl,
      gaps_cons_attemptTimes, gaps_attemptTimes rest, List.map_cons]
    congr 1
    ring

/-! ### Claim theorems -/

/-- C3: for every input text, `submit_message` transmits one wire unit
consisting of a payload in which every embedded newline of the text
has been collapsed to a single space — so no newline byte occurs
before the terminator — followed immediately by the terminator
`"\n\n"`, and the write is drained (flushed) before the call
returns. -/
theorem c3_writeLine_terminator (t : List Nat) :
    (submit_message t).wire = utf8Encode (replaceNewlines (pyStrip t)) ++ [10, 10] ∧
    (∀ b ∈ utf8Encode (replaceNewlines (pyStrip t)), b ≠ 10) ∧
    (submit_message t).drained = true := by
  refine ⟨?_, ?_, rfl⟩
  · show utf8Encode (replaceNewlines (pyStrip t) ++ [10, 10]) = _
    rw [utf8Encode_append]
    rfl
  · intro b hb
    exact ne_ten_of_mem_utf8Encode (fun c hc => replaceNewlines_ne_ten hc) hb

/-- Witness for C3 at the text `"a\nb"`: the submission is
`"a b\n\n"`. -/
theorem c3_writeLine_terminator_witness :
    (submit_message [97, 10, 98]).wire = [97, 32, 98, 10, 10] :=
  (c3_writeLine_terminator [97, 10, 98]).1.trans (by decide)

/-- C10: `submit_message` strips leading and trailing whitespace
(newlines included) from the message before framing; consequently a
whitespace-only message is transmitted as the empty payload `"\n\n"`,
byte-identical to the deliberate empty-line submission that starts
registration. -/
theorem c10_submit_strips (m w1 w2 : List Nat)
    (h1 : ∀ c ∈ w1, isPyWs c = true) (h2 : ∀ c ∈ w2, isPyWs c = true) :
    (submit_message (w1 ++ m ++ w2)).wire = (submit_message m).wire ∧
    ((∀ c ∈ m, isPyWs c = true) →
      (submit_message m).wire = [10, 10] ∧
      (submit_message m).wire = registration_kickoff_wire) := by
  constructor
  · show utf8Encode (replaceNewlines (pyStrip (w1 ++ m ++ w2)) ++ [10, 10]) = _
    rw [List.append_assoc, pyStrip_ws_prefix h1, pyStrip_ws_suffix h2]
    rfl
  · intro hm
    have hnil : pyStrip m = [] := pyStrip_eq_nil_of_all hm
    constructor
    · show utf8Encode (replaceNewlines (pyStrip m) ++ [10, 10]) = _
      rw [hnil]
      rfl
    · show utf8Encode (replaceNewlines (pyStrip m) ++ [10, 10]) = _
      rw [hnil]
      rfl

/-- Witness for C10: `" hi\n"` frames like `"hi"`, and the
whitespace-only message `" \n\t"` goes out as the bare terminator,
identical to the registration kickoff. -/
theorem c10_submit_strips_witness :
    (submit_message ([32] ++ [104, 105] ++ [10])).wire = (submit_message [104, 105]).wire ∧
    (submit_message [32, 10, 9]).wire = [10, 10] ∧
    (submit_message [32, 10, 9]).wire = registration_kickoff_wire := by
  refine ⟨(c10_submit_strips [104, 105] [32] [10] (by decide) (by decide)).1, ?_, ?_⟩
  · exact ((c10_submit_strips [32, 10, 9] [] [] (by decide) (by decide)).2 (by decide)).1
  · exact ((c10_submit_strips [32, 10, 9] [] [] (by decide) (by decide)).2 (by decide)).2

/-- C4: in the listener's reconnection loop, a pass ending in
`ConnectionRefused` is followed by the fixed `RECONNECT_TIME` delay
before the next attempt (so consecutive attempts around a refusal are
spaced at least that interval apart), any other failure of an
established connection is retried immediately with no added delay,
and after any finite number of ended passes another attempt is always
made — the loop never terminates on its own. -/
theorem c4_reconnector (t : ℚ) (sessions : List Session)
    (hdur : ∀ s ∈ sessions, 0 ≤ s.duration) :
    (attemptTimes t sessions).length = sessions.length + 1 ∧
    gaps (attemptTimes t sessions) =
      sessions.map (fun s => s.duration + delayAfter s.outcome) ∧
    (∀ s ∈ sessions, s.outcome = SessionEnd.refused →
      RECONNECT_TIME ≤ s.duration + delayAfter s.outcome) ∧
    (∀ s ∈ sessions, s.outcome ≠ SessionEnd.refused →
      s.duration + delayAfter s.outcome = s.duration) := by
  refine ⟨attemptTimes_length sessions t, gaps_attemptTimes sessions t, ?_, ?_⟩
  · intro s hs ho
    have hd := hdur s hs
    rw [ho]
    show RECONNECT_TIME ≤ s.duration + RECONNECT_TIME
    linarith
  · intro s hs ho
    cases h : s.outcome with
    | refused => exact absurd h ho
    | connectionError => simp [h, delayAfter]
    | otherError => simp [h, delayAfter]
    | streamEnded => simp [h, delayAfter]

/-- Witness for C4: a refused pass of length 1 then a broken
connection of length 2 give three attempts with gaps 6 (= 1 + the
5-unit delay) and 2 (immediate retry). -/
theorem c4_reconnector_witness :
    (attemptTimes 0 [⟨1, SessionEnd.refused⟩, ⟨2, SessionEnd.connectionError⟩]).length = 3 ∧
    gaps (attemptTimes 0 [⟨1, SessionEnd.refused⟩, ⟨2, SessionEnd.connectionError⟩]) =
      [6, 2] := by
  have h := c4_reconnector 0 [⟨1, SessionEnd.refused⟩, ⟨2, SessionEnd.connectionError⟩]
    (by
      intro s hs
      simp only [List.mem_cons, List.not_mem_nil, or_false] at hs
      rcases hs with h | h <;> subst h <;> norm_num)
  refine ⟨h.1, h.2.1.trans ?_⟩
  norm_num [delayAfter, RECONNECT_TIME]

/-- C8 counterexample: the claimed round trip `decode(frame(t)) = t`
for all ASCII newline-free `t` fails at `t = " a"` (ASCII, no
newline): framing strips the leading space, so decoding gives back
`"a"`, not `" a"`. -/
theorem c8_roundtrip_counterexample :
    decodeLine (firstWireLine (frame [32, 97])) = some [97] ∧
    decodeLine (firstWireLine (frame [32, 97])) ≠ some [32, 97] := by
  constructor <;> decide

/-- C8 amended: the round trip holds for ASCII `t` without newlines
that carry no leading or trailing whitespace (`t.strip() = t`):
framing then encodes `t` verbatim before the terminator, and the
listener's line decoding returns exactly `t`. -/
theorem c8_roundtrip_amended (t : List Nat) (hascii : ∀ c ∈ t, c < 128)
    (hnl : ∀ c ∈ t, c ≠ 10) (hstrip : pyStrip t = t) :
    decodeLine (firstWireLine (frame t)) = some t := by
  have hrepl : replaceNewlines (pyStrip t) = t := by
    rw [hstrip]
    exact replaceNewlines_eq_self hnl
  have hframe : frame t = utf8Encode t ++ [10, 10] := by
    show utf8Encode (replaceNewlines (pyStrip t) ++ [10, 10]) = _
    rw [hrepl, utf8Encode_append]
    rfl
  have hno10 : ∀ b ∈ utf8Encode t, (decide (b ≠ 10)) = true := by
    intro b hb
    simpa using ne_ten_of_mem_utf8Encode hnl hb
  have hfwl : firstWireLine (frame t) = utf8Encode t ++ [10] := by
    unfold firstWireLine
    rw [hframe, List.takeWhile_append_of_pos hno10]
    simp
  have henc : utf8Encode t ++ [10] = utf8Encode (t ++ [10]) := by
    rw [utf8Encode_append]
    rfl
  have hdec : utf8Decode (utf8Encode (t ++ [10])) = some (t ++ [10]) := by
    refine utf8Decode_encode_ascii ?_
    intro c hc
    rcases List.mem_append.mp hc with h | h
    · exact hascii c h
    · simp at h
      omega
  show (utf8Decode (firstWireLine (frame t))).map pyStrip = some t
  rw [hfwl, henc, hdec]
  show some (pyStrip (t ++ [10])) = some t
  rw [pyStrip_ws_suffix (by decide), hstrip]

/-- Witness for the amended C8 at `t = "hi"`. -/
theorem c8_roundtrip_amended_witness :
    decodeLine (firstWireLine (frame [104, 105])) = some [104, 105] :=
  c8_roundtrip_amended [104, 105] (by decide) (by decide) (by decide)

/-- C7: the history logger appends exactly one record per received
line whose decoded, stripped text is non-empty (blank lines are
discarded), in exact order of receipt, each formatted as
`"[DD.MM.YY HH:MM] <message>\n"`.  The stream reader yields each
`\n`-terminated line separately however the bytes were chunked into
reads, so two consecutive lines arriving in one read still give two
separate records in receipt order. -/
theorem c7_history_logger (now : Nat → Timestamp) :
    ∀ (i : Nat) (lines : List (List Nat)),
    process_messages now i lines = (List.enumFrom i lines).filterMap
      (fun il => (utf8Decode il.2).bind (fun d =>
        if pyStrip d = [] then none else some (formatRecord (now il.1) (pyStrip d))))
  | _, [] => rfl
  | i, line :: rest => by
    rcases h : utf8Decode line with _ | d
    · simp [process_messages, List.enumFrom, h, c7_history_logger now (i + 1) rest]
    · by_cases hm : pyStrip d = [] <;>
        simp [process_messages, List.enumFrom, h, hm, c7_history_logger now (i + 1) rest]

/-- C5 counterexample: the spec claims undecodable byte sequences on
the listen channel are replaced (best-effort decoding); the source
decodes strictly and drops the whole message instead.  On the single
line `b"\xff hi\n"`-like input `[255, 104, 105, 10]` the code appends
no record, while the claimed replacement decoding appends one whose
text starts with U+FFFD. -/
theorem c5_decode_counterexample :
    process_messages (fun _ => ⟨7, 10, 25, 12, 0⟩) 0 [[255, 104, 105, 10]] = [] ∧
    process_messages_replaceSpec (fun _ => ⟨7, 10, 25, 12, 0⟩) 0 [[255, 104, 105, 10]] =
      [formatRecord ⟨7, 10, 25, 12, 0⟩ [65533, 104, 105]] ∧
    ([] : List (List Nat)) ≠ [formatRecord ⟨7, 10, 25, 12, 0⟩ [65533, 104, 105]] := by
  refine ⟨by decide, by decide, by decide⟩

/-- C5 amended: decoding is strict UTF-8; a decode failure on one
message is caught (and logged) inside the loop, the message is
skipped with no record appended, and the stream continues with the
subsequent lines exactly as if the bad line had not been there. -/
theorem c5_decode_error_skips (now : Nat → Timestamp) (i : Nat) (bad : List Nat)
    (rest : List (List Nat)) (h : utf8Decode bad = none) :
    process_messages now i (bad :: rest) = process_messages now (i + 1) rest := by
  simp [process_messages, h]

/-- Witness for the amended C5: the undecodable line `[255, 104, 105,
10]` is skipped and the following line is still processed. -/
theorem c5_decode_error_skips_witness :
    utf8Decode [255, 104, 105, 10] = none ∧
    process_messages (fun _ => ⟨7, 10, 25, 12, 0⟩) 0 [[255, 104, 105, 10], [104, 105, 10]] =
      process_messages (fun _ => ⟨7, 10, 25, 12, 0⟩) 1 [[104, 105, 10]] :=
  ⟨by decide, c5_decode_error_skips _ 0 _ _ (by decide)⟩

/-- C6 counterexample: the claim says every non-token case returns
"no credential" and never raises; but a credential file whose content
is the valid JSON `null` makes `credentials_data["account_hash"]`
raise an uncaught `TypeError` (`None` is not subscriptable). -/
theorem c6_load_counterexample :
    get_token (CredFile.loaded (JsonLoadOutcome.ok Json.null)) = Except.error () := rfl

/-- C6 amended: `get_token` returns the stored token exactly when the
file exists, parses as a JSON object and that object has an
`account_hash` entry; a missing file, a JSON decode failure, an I/O
error, or an object without the entry give `None`; but a file whose
content is valid JSON of non-object type, or an undecodable file
(`UnicodeDecodeError`), raises out of `get_token` instead of
returning `None`. -/
theorem c6_load_amended :
    (get_token CredFile.missing = Except.ok none) ∧
    (get_token (CredFile.loaded JsonLoadOutcome.jsonDecodeError) = Except.ok none) ∧
    (get_token (CredFile.loaded JsonLoadOutcome.ioError) = Except.ok none) ∧
    (∀ fields v, jsonGet fields keyAccountHash = some v →
      get_token (CredFile.loaded (JsonLoadOutcome.ok (Json.obj fields))) =
        Except.ok (some v)) ∧
    (∀ fields, jsonGet fields keyAccountHash = none →
      get_token (CredFile.loaded (JsonLoadOutcome.ok (Json.obj fields))) = Except.ok none) ∧
    (get_token (CredFile.loaded JsonLoadOutcome.unicodeDecodeError) = Except.error ()) ∧
    (∀ v, (∀ fields, v ≠ Json.obj fields) →
      get_token (CredFile.loaded (JsonLoadOutcome.ok v)) = Except.error ()) := by
  refine ⟨rfl, rfl, rfl, ?_, ?_, rfl, ?_⟩
  · intro fields v h
    simp [get_token, h]
  · intro fields h
    simp [get_token, h]
  · intro v hv
    cases v <;> first | rfl | exact absurd rfl (hv _)

/-- Witness for the amended C6: a credential object with an
`account_hash` entry yields that entry. -/
theorem c6_load_amended_witness :
    get_token (CredFile.loaded (JsonLoadOutcome.ok
        (Json.obj [(keyAccountHash, Json.str [97])]))) =
      Except.ok (some (Json.str [97])) :=
  c6_load_amended.2.2.2.1 [(keyAccountHash, Json.str [97])] (Json.str [97]) rfl

/-- C2 counterexample: the claim says a null *or empty* parsed result
is Rejected, after which the caller sends nothing.  For the response
`"{}"`, `json.loads` yields the empty object, which `is None` is
false on: `authorize` returns the open writer (Authorized) and `main`
goes on to submit the message. -/
theorem c2_authorizer_counterexample :
    (authorize (fun _ => Except.ok (Json.obj []))
        ⟨true, some [], true, some [123, 125]⟩).writerReturned = true ∧
    (sender_main (fun _ => Except.ok (Json.obj []))
        ⟨true, some [], true, some [123, 125]⟩ true).messageSent = true :=
  ⟨rfl, rfl⟩

/-- C2 amended: a parse result of exactly `null` makes `authorize`
close the connection and return nothing, after which the caller sends
no data on it and does not retry; any other successfully parsed
result — the empty object included — returns the open, unclosed
writer, and the caller then performs its one submission. -/
theorem c2_authorizer (parse : JsonParse) (i : AuthInput) (submitOk : Bool) :
    (∀ g resp, i.openOk = true → i.greeting = some g → i.sendOk = true →
      i.response = some resp →
      parse (firstLine (pyStrip resp)) = Except.ok Json.null →
      authorize parse i = ⟨false, true, 1⟩ ∧
      (sender_main parse i submitOk).messageSent = false) ∧
    (∀ g resp v, i.openOk = true → i.greeting = some g → i.sendOk = true →
      i.response = some resp →
      parse (firstLine (pyStrip resp)) = Except.ok v → v ≠ Json.null →
      (authorize parse i).writerReturned = true ∧ (authorize parse i).closes = 0 ∧
      (sender_main parse i submitOk).messageSent = submitOk) := by
  obtain ⟨o, g0, s0, r0⟩ := i
  constructor
  · rintro g resp rfl rfl rfl rfl hp
    refine ⟨by simp [authorize, hp], by simp [sender_main, authorize, hp]⟩
  · rintro g resp v rfl rfl rfl rfl hp hv
    have ha : authorize parse ⟨true, some g, true, some resp⟩ = ⟨true, true, 0⟩ := by
      cases v
      · exact absurd rfl hv
      all_goals simp [authorize, hp]
    refine ⟨by rw [ha], by rw [ha], by simp [sender_main, ha]⟩

/-- Witness for the amended C2 at the response `"null"`: Rejected,
closed once inside `authorize`, nothing sent. -/
theorem c2_authorizer_witness :
    authorize (fun _ => Except.ok Json.null)
        ⟨true, some [], true, some [110, 117, 108, 108]⟩ = ⟨false, true, 1⟩ ∧
    (sender_main (fun _ => Except.ok Json.null)
        ⟨true, some [], true, some [110, 117, 108, 108]⟩ true).messageSent = false :=
  (c2_authorizer _ _ true).1 [] [110, 117, 108, 108] rfl rfl rfl rfl rfl

/-- C1: for a registration response whose stripped first line parses
as a JSON object with a truthy `account_hash`, `register` succeeds,
persists exactly the parsed object, and returns the server-sent
nickname (which may differ from the requested one) with the token;
an object without a truthy token, a malformed (unparseable) response,
a non-object response, or an I/O error at any step yields failure
with nothing persisted. -/
theorem c1_registrar (parse : JsonParse) (nick : List Nat) (i : RegisterInput) :
    (i.openOk = false ∨ i.greeting = none ∨ i.send1Ok = false ∨ i.prompt = none ∨
        i.send2Ok = false ∨ i.response = none →
      register parse nick i = ⟨none, none⟩) ∧
    (∀ g p resp fields tok nickVal,
      i.openOk = true → i.greeting = some g → i.send1Ok = true → i.prompt = some p →
      i.send2Ok = true → i.response = some resp →
      parse (firstLine (pyStrip resp)) = Except.ok (Json.obj fields) →
      jsonGet fields keyAccountHash = some tok → truthy tok = true →
      jsonGet fields keyNickname = some nickVal →
      register parse nick i = ⟨some (nickVal, tok), some (Json.obj fields)⟩) ∧
    (∀ resp fields,
      i.response = some resp →
      parse (firstLine (pyStrip resp)) = Except.ok (Json.obj fields) →
      (¬ ∃ tok, jsonGet fields keyAccountHash = some tok ∧ truthy tok = true) →
      register parse nick i = ⟨none, none⟩) ∧
    (∀ resp e, i.response = some resp →
      parse (firstLine (pyStrip resp)) = Except.error e →
      register parse nick i = ⟨none, none⟩) ∧
    (∀ resp v, i.response = some resp →
      parse (firstLine (pyStrip resp)) = Except.ok v →
      (∀ fields, v ≠ Json.obj fields) →
      register parse nick i = ⟨none, none⟩) := by
  obtain ⟨o, g0, s1, p0, s2, r0⟩ := i
  refine ⟨?_, ?_, ?_, ?_, ?_⟩
  · intro h
    cases o <;> cases g0 <;> cases s1 <;> cases p0 <;> cases s2 <;> cases r0 <;>
      simp_all [register]
  · rintro g p resp fields tok nickVal rfl rfl rfl rfl rfl rfl hp hget htr hnick
    simp [register, register_response, hp, hget, htr, hnick]
  · rintro resp fields rfl hp hno
    have key : register_response parse nick resp = ⟨none, none⟩ := by
      rcases hjg : jsonGet fields keyAccountHash with _ | tok
      · simp [register_response, hp, hjg]
      · have ht : truthy tok = false := by
          rcases h : truthy tok with _ | _
          · rfl
          · exact absurd ⟨tok, hjg, h⟩ hno
        simp [register_response, hp, hjg, ht]
    cases o <;> cases g0 <;> cases s1 <;> cases p0 <;> cases s2 <;> simp [register, key]
  · rintro resp e rfl hp
    have key : register_response parse nick resp = ⟨none, none⟩ := by
      simp [register_response, hp]
    cases o <;> cases g0 <;> cases s1 <;> cases p0 <;> cases s2 <;> simp [register, key]
  · rintro resp v rfl hp hv
    have key : register_response parse nick resp = ⟨none, none⟩ := by
      cases v
      all_goals first
      | exact absurd rfl (hv _)
      | simp [register_response, hp]
    cases o <;> cases g0 <;> cases s1 <;> cases p0 <;> cases s2 <;> simp [register, key]

/-- Witness for C1 at the documented response
`{"nickname":"bob","account_hash":"abc123"}`: success, exactly the
parsed object persisted, server nickname `"bob"` and token
`"abc123"` returned even though `"alice"` was requested. -/
theorem c1_registrar_witness :
    register
      (fun _ => Except.ok (Json.obj
        [(keyNickname, Json.str (strBytes "bob")),
         (keyAccountHash, Json.str (strBytes "abc123"))]))
      (strBytes "alice")
      ⟨true, some [], true, some [], true, some (strBytes "resp")⟩ =
    ⟨some (Json.str (strBytes "bob"), Json.str (strBytes "abc123")),
      some (Json.obj
        [(keyNickname, Json.str (strBytes "bob")),
         (keyAccountHash, Json.str (strBytes "abc123"))])⟩ :=
  (c1_registrar _ _ _).2.1 [] [] (strBytes "resp") _ _ _
    rfl rfl rfl rfl rfl rfl rfl rfl rfl rfl

/-- C9: the listener's `chat_connection` context manager does close
its connection exactly once on every exit path of the body; but in
the sender, `authorize`'s exception path (for example an unparseable
authorization response) abandons the connection it opened: neither
`authorize` nor `main` ever closes it, contradicting the stated
invariant. -/
theorem c9_connection_close_bug :
    (∀ body, (chat_connection true body).closes = 1) ∧
    (chat_connection false BodyOutcome.error).closes = 0 ∧
    (authorize (fun _ => Except.error ())
        ⟨true, some [], true, some (strBytes "garbage")⟩).opened = true ∧
    (authorize (fun _ => Except.error ())
        ⟨true, some [], true, some (strBytes "garbage")⟩).closes = 0 ∧
    (sender_main (fun _ => Except.error ())
        ⟨true, some [], true, some (strBytes "garbage")⟩ true).totalCloses = 0 := by
  exact ⟨fun body => rfl, rfl, rfl, rfl, rfl⟩
